import Mathlib

/-!
# Verification of the Amadeus MCP proxy core (src/index.js, src/unnamed/part_000)

Shallow embedding of the authentication-and-forwarding core of the repository:

* `pathIsAllowed` — the allowlist path matcher (src/index.js lines 61-76);
* `getAmadeusToken` — the OAuth2 client-credentials token exchange
  (src/index.js lines 79-101, identical copy in src/unnamed/part_000);
* `forwardAmadeus` — the generic request forwarder
  (src/unnamed/part_000 lines 103-129);
* the `amadeus.request` tool handler (src/index.js lines 145-197);
* `normalizeBase` / `ensureString` / `assertNoAuthHeader`
  (src/unnamed/part_000 lines 176-207).

Network effects (axios calls) are modelled by passing in the outcome of each
HTTP exchange explicitly (`AxiosOutcome`); JavaScript exceptions are modelled
with `Except`; JSON values with the inductive `Json`.
-/

namespace Amadeus

/-! ## Path splitting: the semantics of `p.split("/")` on character lists -/

/-- Model of JavaScript `s.split("/")` over a character list: splits into the
(possibly empty) maximal slash-free chunks.  `splitSeg [] = [[]]`, matching
`"".split("/") = [""]`. -/
def splitSeg : List Char → List (List Char)
  | [] => [[]]
  | c :: cs =>
    if c = '/' then [] :: splitSeg cs
    else
      match splitSeg cs with
      | [] => [[c]]
      | s :: rest => (c :: s) :: rest

/-! ## The allowlist and the path matcher (src/index.js lines 15-76) -/

/-- `ALLOWED_PATHS` from src/index.js lines 15-59 (the same list appears in
src/unnamed/part_000).  The JS `Set` is modelled as a list; `Set.has` is exact
string membership and iteration order does not affect the boolean result. -/
def ALLOWED_PATHS : List String :=
  [ "/v2/shopping/flight-offers"
  , "/v1/shopping/flight-dates"
  , "/v1/shopping/flight-offers/pricing"
  , "/v1/booking/flight-orders"
  , "/v1/booking/flight-orders/:flightOrderId"
  , "/v1/shopping/seatmaps"
  , "/v2/schedule/flights"
  , "/v1/travel/predictions/flight-delay"
  , "/v1/analytics/itinerary-price-metrics"
  , "/v1/shopping/flight-offers/upselling"
  , "/v2/shopping/flight-offers/prediction"
  , "/v1/shopping/flight-destinations"
  , "/v1/shopping/availability/flight-availabilities"
  , "/v1/reference-data/recommended-locations"
  , "/v1/airport/predictions/on-time"
  , "/v1/reference-data/locations"
  , "/v1/reference-data/locations/CMUC"
  , "/v1/reference-data/locations/airports"
  , "/v1/airport/direct-destinations"
  , "/v2/reference-data/urls/checkin-links"
  , "/v1/reference-data/airlines"
  , "/v1/airline/destinations"
  , "/v1/shopping/activities"
  , "/v1/shopping/activities/4615"
  , "/v1/shopping/activities/by-square"
  , "/v1/reference-data/locations/cities"
  , "/v1/shopping/transfer-offers"
  , "/v1/ordering/transfer-orders"
  , "/v1/ordering/transfer-orders/:transferOrderId/transfers/cancellation"
  , "/v1/travel/analytics/air-traffic/traveled"
  , "/v1/travel/analytics/air-traffic/booked"
  , "/v1/travel/analytics/air-traffic/busiest-period"
  , "/v1/security/oauth2/token"
  , "/v1/reference-data/locations/hotels/by-city"
  , "/v3/shopping/hotel-offers"
  , "/v1/booking/hotel-bookings"
  , "/v1/reference-data/locations/hotels/by-hotels"
  , "/v1/reference-data/locations/hotels/by-geocode"
  , "/v3/shopping/hotel-offers/:hotelOfferId"
  , "/v2/booking/hotel-orders"
  , "/v2/e-reputation/hotel-sentiments"
  , "/v1/reference-data/locations/hotel"
  , "/v1/travel/predictions/trip-purpose" ]

/-- One compiled segment of a template: the JS code maps each `split("/")`
segment `seg` to the regex source `seg.startsWith(":") ? "[^/]+" : seg`. -/
inductive Seg where
  | lit (s : List Char)
  | hole
  deriving DecidableEq, Repr

/-- `seg.startsWith(":") ? "[^/]+" : seg` for a single segment. -/
def compileSeg (s : List Char) : Seg :=
  if s.head? = some ':' then Seg.hole else Seg.lit s

/-- Compilation of a template string into its per-segment matchers, i.e. the
semantics of building `new RegExp("^" + p.split("/").map(...).join("/") + "$")`
in src/index.js lines 65-72.  (The literal segments of every `:`-template in
the allowlist consist only of letters, digits and hyphens, so each is matched
verbatim by its regex source.) -/
def compileSegs (tpl : List Char) : List Seg :=
  (splitSeg tpl).map compileSeg

/-- The anchored regex `^s₁/s₂/.../sₙ$`, where each `sᵢ` is a verbatim literal
or `[^/]+`, matches a candidate exactly when its `split("/")` chunks line up
one-for-one: a literal segment must be equal and a `[^/]+` segment must be a
non-empty slash-free chunk (the chunks produced by `splitSeg` are slash-free
by construction, and the check keeps the regex meaning explicit). -/
def matchSegs : List Seg → List (List Char) → Bool
  | [], [] => true
  | Seg.lit s :: ts, c :: cs => (s = c : Bool) && matchSegs ts cs
  | Seg.hole :: ts, c :: cs =>
      (!c.isEmpty) && c.all (fun ch => !(ch = '/')) && matchSegs ts cs
  | _, _ => false

/-- The template loop of `pathIsAllowed` (src/index.js lines 63-74): every
allowlist entry containing `:` is compiled and tested against the request. -/
def templatesAccept (requestPath : String) : Bool :=
  ALLOWED_PATHS.any (fun p =>
    p.data.contains ':' && matchSegs (compileSegs p.data) (splitSeg requestPath.data))

/-- `pathIsAllowed` (src/index.js lines 61-76): exact allowlist membership,
else any `:`-template matches via its anchored regex. -/
def pathIsAllowed (requestPath : String) : Bool :=
  ALLOWED_PATHS.contains requestPath || templatesAccept requestPath

/-- Join chunks with `'/'` separators — the left inverse of `splitSeg`. -/
def joinSegs : List (List Char) → List Char
  | [] => []
  | [s] => s
  | s :: rest => s ++ '/' :: joinSegs rest

/-! ## JSON values and JavaScript value coercions -/

/-- JSON-like JavaScript runtime values (axios response bodies, token payloads).
`null` also stands for `undefined` where only nullishness matters. -/
inductive Json where
  | null
  | bool (b : Bool)
  | num (n : Int)
  | str (s : String)
  | arr (elems : List Json)
  | obj (fields : List (String × Json))

/-- `JSON.stringify` escaping for the characters exercised here (quote and
backslash; control-character escapes are not modelled). -/
def jsonEscape (s : String) : String :=
  s.data.foldr
    (fun c acc =>
      (if c = '"' then "\\\"" else if c = '\\' then "\\\\" else String.singleton c) ++ acc)
    ""

mutual

/-- Model of `JSON.stringify` on `Json` values. -/
def Json.stringify : Json → String
  | .null => "null"
  | .bool b => if b then "true" else "false"
  | .num n => toString n
  | .str s => "\"" ++ jsonEscape s ++ "\""
  | .arr xs => "[" ++ Json.stringifyArr xs ++ "]"
  | .obj fs => "\x7b" ++ Json.stringifyObj fs ++ "\x7d"

def Json.stringifyArr : List Json → String
  | [] => ""
  | [j] => Json.stringify j
  | j :: rest => Json.stringify j ++ "," ++ Json.stringifyArr rest

def Json.stringifyObj : List (String × Json) → String
  | [] => ""
  | [(k, j)] => "\"" ++ jsonEscape k ++ "\":" ++ Json.stringify j
  | (k, j) :: rest =>
      "\"" ++ jsonEscape k ++ "\":" ++ Json.stringify j ++ "," ++ Json.stringifyObj rest

end

/-- Nullishness test (`null`, also standing for `undefined`). -/
def Json.isNull : Json → Bool
  | .null => true
  | _ => false

/-- JavaScript truthiness of a `Json` value. -/
def Json.truthy : Json → Bool
  | .null => false
  | .bool b => b
  | .num n => !(n = 0)
  | .str s => !(s = "")
  | .arr _ => true
  | .obj _ => true

/-- JavaScript property access `v[k]`: `none` models `undefined`. -/
def Json.get : Json → String → Option Json
  | .obj fields, k => (fields.find? (fun kv => kv.1 == k)).map (fun kv => kv.2)
  | _, _ => none

/-- Truthiness of a possibly-`undefined` value. -/
def truthyOpt : Option Json → Bool
  | none => false
  | some j => j.truthy

/-- JavaScript template-string interpolation of a value (only the string case
is exercised by the code: the token from the auth response). -/
def Json.interp : Json → String
  | .str s => s
  | .num n => toString n
  | .bool b => if b then "true" else "false"
  | .null => "null"
  | .arr _ => ""
  | .obj _ => "[object Object]"

/-! ## The axios HTTP client, modelled -/

/-- A completed HTTP exchange: status code and parsed body. -/
structure AxiosResp where
  status : Nat
  data : Json

/-- An axios rejection: a message, plus the response when the server did
answer (absent on DNS/connection/timeout/TLS failures). -/
structure AxiosError where
  message : String
  response : Option AxiosResp

/-- The outcome of one HTTP exchange as decided by the network: either the
server answered (with any status) or the transport failed. -/
inductive AxiosOutcome where
  | completed (r : AxiosResp)
  | failed (e : AxiosError)

/-- axios resolving/rejecting an outcome under a `validateStatus` predicate:
a completed exchange resolves when `validateStatus status` holds and otherwise
rejects with `"Request failed with status code N"` carrying the response;
transport failures reject with no response attached. -/
def axiosExec (validateStatus : Nat → Bool) : AxiosOutcome → Except AxiosError AxiosResp
  | .completed r =>
      if validateStatus r.status then .ok r
      else .error ⟨"Request failed with status code " ++ toString r.status, some r⟩
  | .failed e => .error e

/-- axios's default `validateStatus`: 2xx only (used by the token POST, which
passes no `validateStatus` of its own). -/
def defaultValidate (status : Nat) : Bool :=
  decide (200 ≤ status) && decide (status < 300)

/-- A JavaScript exception as thrown by the modelled code: either a plain
`new Error(message)` or an axios rejection. -/
inductive Thrown where
  | jsError (message : String)
  | axios (e : AxiosError)

/-! ## TokenProvider: `getAmadeusToken` (src/index.js lines 79-101) -/

/-- The `detail` of the catch in `getAmadeusToken`:
`e?.response?.data ?? e?.message`, then
`typeof detail === "string" ? detail : JSON.stringify(detail)`.
(The final `?? "Failed to authenticate with Amadeus"` fallback is unreachable
here because `message` is always a string in the model.) -/
def authDetail (e : AxiosError) : String :=
  match e.response with
  | some r =>
      match r.data with
      | Json.null => e.message
      | Json.str s => s
      | d => d.stringify
  | none => e.message

/-- `getAmadeusToken`: POST the client-credentials form to the token endpoint
(network outcome supplied as `tokenOutcome`); on a 2xx response require a
truthy body with a truthy `access_token` field and return that field, else
throw `No access_token in Amadeus response`; every failure inside the `try`
is re-thrown as `Amadeus auth error: {detail}`. -/
def getAmadeusToken (tokenOutcome : AxiosOutcome) : Except String Json :=
  let attempt : Except AxiosError Json :=
    match axiosExec defaultValidate tokenOutcome with
    | .error e => .error e
    | .ok resp =>
      if resp.data.truthy && truthyOpt (resp.data.get "access_token") then
        .ok ((resp.data.get "access_token").getD Json.null)
      else
        .error ⟨"No access_token in Amadeus response", none⟩
  match attempt with
  | .ok tok => .ok tok
  | .error e => .error ("Amadeus auth error: " ++ authDetail e)

/-! ## Header handling -/

/-- JavaScript object update `{...l, k: v}` restricted to one key: replace the
entry in place when the exact key is present, else append it. -/
def setKey (l : List (String × String)) (k v : String) : List (String × String) :=
  if l.any (fun kv => kv.1 == k) then
    l.map (fun kv => if kv.1 == k then (k, v) else kv)
  else l ++ [(k, v)]

/-- Lookup of a property by exact key. -/
def lookupKey (l : List (String × String)) (k : String) : Option String :=
  (l.find? (fun kv => kv.1 == k)).map (fun kv => kv.2)

/-- The header merge of the forwarder and of the `amadeus.request` handler:
`{ ...headers, Authorization: `Bearer {token}`, "Content-Type": contentType }`
(the two server-set entries are assigned after the spread, so they win on
exact key collision). -/
def mergedHeaders (headers : List (String × String)) (token : Json)
    (contentType : String) : List (String × String) :=
  setKey (setKey headers "Authorization" ("Bearer " ++ token.interp))
    "Content-Type" contentType

/-- JavaScript `k.toLowerCase()` on a header key (ASCII lowering; header keys
are ASCII). -/
def lowerKey (s : String) : String :=
  String.mk (s.data.map Char.toLower)

/-- The zod `.refine` on `headers` in `RequestSchema` (src/index.js lines
125-132): lower-case every key into a fresh object and reject when
`authorization` is among the keys. -/
def headersRefine (h : List (String × String)) : Bool :=
  !(h.any (fun kv => lowerKey kv.1 == "authorization"))

/-! ## RequestForwarder: `forwardAmadeus` (src/unnamed/part_000 lines 103-129) -/

/-- The forwarder's input after validation (serviceName/apiKey/apiSecret are
only routing/credential strings here; query and body are passed through to
axios and do not influence the modelled result shape). -/
structure ForwardRequest where
  serviceName : String
  method : String
  path : String
  query : List (String × String)
  body : Option Json
  headers : List (String × String)
  contentType : String
  timeoutMs : Int

/-- The behaviour of the network during one forwarded call: the outcome of the
token POST and the outcome of the main request. -/
structure HttpEnv where
  tokenOutcome : AxiosOutcome
  mainOutcome : AxiosOutcome

/-- The main HTTP request as actually issued (url, method, final headers,
timeout). -/
structure Outgoing where
  url : String
  method : String
  headers : List (String × String)
  timeoutMs : Int
  deriving DecidableEq, Repr

/-- `{payload, isError}` returned by `forwardAmadeus`. -/
structure ForwardResult where
  payload : String
  isError : Bool
  deriving DecidableEq, Repr

/-- `typeof response.data === "string" ? response.data : JSON.stringify(response.data)`. -/
def payloadOf (data : Json) : String :=
  match data with
  | Json.str s => s
  | d => d.stringify

/-- `forwardAmadeus`: fetch a token (its exception propagates — there is no
try/catch in this function), then issue the main request with
`validateStatus: () => true` and normalize to `{payload, isError}` with
`isError = status >= 400`.  The second component records the main HTTP request
actually issued — `none` when it was never attempted. -/
def forwardAmadeus (req : ForwardRequest) (env : HttpEnv) :
    Except Thrown ForwardResult × Option Outgoing :=
  match getAmadeusToken env.tokenOutcome with
  | .error msg => (.error (.jsError msg), none)
  | .ok token =>
    let url := "https://" ++ req.serviceName ++ ".api.amadeus.com" ++ req.path
    let out : Outgoing :=
      ⟨url, req.method, mergedHeaders req.headers token req.contentType, req.timeoutMs⟩
    match axiosExec (fun _ => true) env.mainOutcome with
    | .ok response =>
        (.ok ⟨payloadOf response.data, decide (400 ≤ response.status)⟩, some out)
    | .error e => (.error (.axios e), some out)

/-! ## The `amadeus.request` tool handler (src/index.js lines 145-197) -/

/-- A tool result: the single text content entry and the `isError` flag. -/
structure HandlerResult where
  text : String
  isError : Bool
  deriving DecidableEq, Repr

/-- The catch block of the `amadeus.request` handler (src/index.js lines
188-196): `status = e?.response?.status ?? 500`,
`data = e?.response?.data ?? {error: e?.message || "Unknown error"}`,
`text = typeof data === "string" ? data : JSON.stringify(data)`. -/
def forwardingErrorText (e : AxiosError) : String :=
  let fallback : Json :=
    Json.obj [("error", Json.str (if e.message = "" then "Unknown error" else e.message))]
  let status : Nat :=
    match e.response with
    | some r => r.status
    | none => 500
  let data : Json :=
    match e.response with
    | some r => if (r.data).isNull then fallback else r.data
    | none => fallback
  let text :=
    match data with
    | Json.str s => s
    | d => d.stringify
  "Forwarding error (" ++ toString status ++ "): " ++ text

/-- The `amadeus.request` tool handler after zod validation.  The token fetch
sits OUTSIDE the try block (src/index.js line 160), so its failure propagates
out of the handler; only the main axios call is wrapped in try/catch. -/
def amadeusRequestHandler (req : ForwardRequest) (env : HttpEnv) :
    Except Thrown HandlerResult × Option Outgoing :=
  match getAmadeusToken env.tokenOutcome with
  | .error msg => (.error (.jsError msg), none)
  | .ok token =>
    let url := "https://" ++ req.serviceName ++ ".api.amadeus.com" ++ req.path
    let out : Outgoing :=
      ⟨url, req.method, mergedHeaders req.headers token req.contentType, req.timeoutMs⟩
    match axiosExec (fun _ => true) env.mainOutcome with
    | .ok response =>
        (.ok ⟨payloadOf response.data, decide (400 ≤ response.status)⟩, some out)
    | .error e => (.ok ⟨forwardingErrorText e, true⟩, some out)

/-! ## `ensureString` / `assertNoAuthHeader` / `normalizeBase`
(src/unnamed/part_000 lines 176-207) and the fixed-path flight-offers tool
handler (lines 305-317) -/

/-- A JavaScript input value as far as `normalizeBase` inspects it.  A number
is split by `Number.isInteger`: `intNum n` when it holds, `fracNum` when it is
numeric but not an integer (the value itself is then never used).  Object
values are restricted to string-to-string maps, which covers the `headers`
inspection; `query` is only tested for being an object. -/
inductive JSVal where
  | undef
  | nullv
  | str (s : String)
  | intNum (n : Int)
  | fracNum
  | boolv (b : Bool)
  | objv (fields : List (String × String))
  deriving DecidableEq, Repr

/-- `val.trim() === ""` holds exactly when every character is whitespace. -/
def isBlank (s : String) : Bool :=
  s.data.all (fun c => c.isWhitespace)

/-- `ensureString` (src/unnamed/part_000 lines 176-181): throw unless the
value is a string with non-blank content (`typeof val !== "string" ||
val.trim() === ""`). -/
def ensureString (val : JSVal) (name : String) : Except String String :=
  match val with
  | .str s => if isBlank s then .error (name ++ " must be a non-empty string") else .ok s
  | _ => .error (name ++ " must be a non-empty string")

/-- `assertNoAuthHeader` (src/unnamed/part_000 lines 183-190): reject when any
key lower-cases to `authorization`. -/
def assertNoAuthHeader (headers : List (String × String)) : Except String Unit :=
  if headers.any (fun kv => lowerKey kv.1 == "authorization") then
    .error "Do not send Authorization; it will be set by the server."
  else .ok ()

/-- The raw input object handed to a fixed-path tool handler. -/
structure RawInput where
  serviceName : JSVal
  apiKey : JSVal
  apiSecret : JSVal
  query : JSVal
  body : Option Json
  headers : JSVal
  contentType : JSVal
  timeoutMs : JSVal

/-- The normalized record returned by `normalizeBase`. -/
structure NormalizedBase where
  serviceName : String
  apiKey : String
  apiSecret : String
  query : List (String × String)
  body : Option Json
  headers : List (String × String)
  contentType : String
  timeoutMs : Int

/-- `Number.isInteger(input.timeoutMs) ? input.timeoutMs : 15000`
(src/unnamed/part_000 line 202). -/
def effTimeout (v : JSVal) : Int :=
  match v with
  | .intNum n => n
  | _ => 15000

/-- `normalizeBase` (src/unnamed/part_000 lines 192-207). -/
def normalizeBase (input : RawInput) : Except String NormalizedBase := do
  let serviceName ← ensureString input.serviceName "serviceName"
  let apiKey ← ensureString input.apiKey "apiKey"
  let apiSecret ← ensureString input.apiSecret "apiSecret"
  let query := match input.query with | .objv q => q | _ => []
  let body := input.body
  let headers := match input.headers with | .objv h => h | _ => []
  let _ ← assertNoAuthHeader headers
  let contentType := match input.contentType with | .str s => s | _ => "application/json"
  let timeoutMs : Int := effTimeout input.timeoutMs
  if ¬ (timeoutMs > 0 ∧ timeoutMs ≤ 60000) then
    throw "timeoutMs must be a positive integer up to 60000"
  else
    pure ⟨serviceName, apiKey, apiSecret, query, body, headers, contentType, timeoutMs⟩

/-- The `amadeus.v2.shopping.flight-offers` tool handler
(src/unnamed/part_000 lines 305-317): `normalizeBase`, then `forwardAmadeus`
with fixed method/path, with no try/catch — exceptions propagate. -/
def flightOffersHandler (input : RawInput) (env : HttpEnv) :
    Except Thrown HandlerResult × Option Outgoing :=
  match normalizeBase input with
  | .error msg => (.error (.jsError msg), none)
  | .ok args =>
    let req : ForwardRequest :=
      ⟨args.serviceName, "GET", "/v2/shopping/flight-offers", args.query, args.body,
       args.headers, args.contentType, args.timeoutMs⟩
    match forwardAmadeus req env with
    | (.ok r, o) => (.ok ⟨r.payload, r.isError⟩, o)
    | (.error e, o) => (.error e, o)

/-! ## Sample values used in concrete evaluations -/

/-- A representative validated request. -/
def sampleReq : ForwardRequest :=
  ⟨"test", "GET", "/v2/shopping/flight-offers", [], none, [], "application/json", 15000⟩

/-- A token endpoint answering 200 with a good `access_token`. -/
def okTokenOutcome : AxiosOutcome :=
  .completed ⟨200, Json.obj [("access_token", Json.str "tok123")]⟩

/-! # Theorems -/

/-! ### Helper lemmas about the path matcher -/

theorem splitSeg_ne_nil (l : List Char) : splitSeg l ≠ [] := by
  cases l with
  | nil => simp [splitSeg]
  | cons c cs =>
    simp only [splitSeg]
    split
    · simp
    · split <;> simp

/-- Splitting a list that starts with a slash-free chunk followed by a slash. -/
theorem splitSeg_append_slash (a l : List Char) (h : a.all (fun c => !(c = '/')) = true) :
    splitSeg (a ++ '/' :: l) = a :: splitSeg l := by
  induction a with
  | nil => simp [splitSeg]
  | cons c cs ih =>
    simp only [List.all_cons, Bool.and_eq_true, Bool.not_eq_true'] at h
    obtain ⟨hc, hcs⟩ := h
    have hc' : ¬ (c = '/') := by
      intro hh
      rw [hh] at hc
      simp at hc
    simp only [List.cons_append, splitSeg, if_neg hc', List.append_eq, ih hcs]

/-- Splitting a slash-free list yields a single chunk. -/
theorem splitSeg_no_slash (a : List Char) (h : a.all (fun c => !(c = '/')) = true) :
    splitSeg a = [a] := by
  induction a with
  | nil => simp [splitSeg]
  | cons c cs ih =>
    simp only [List.all_cons, Bool.and_eq_true, Bool.not_eq_true'] at h
    obtain ⟨hc, hcs⟩ := h
    have hc' : ¬ (c = '/') := by
      intro hh
      rw [hh] at hc
      simp at hc
    simp only [splitSeg, if_neg hc', ih hcs]

theorem splitSeg_joinSegs (parts : List (List Char)) (hne : parts ≠ [])
    (h : ∀ p ∈ parts, p.all (fun c => !(c = '/')) = true) :
    splitSeg (joinSegs parts) = parts := by
  induction parts with
  | nil => exact absurd rfl hne
  | cons p rest ih =>
    cases rest with
    | nil =>
      simp only [joinSegs]
      exact splitSeg_no_slash p (h p (by simp))
    | cons q rest' =>
      simp only [joinSegs]
      rw [splitSeg_append_slash p _ (h p (by simp))]
      rw [ih (by simp) (fun x hx => h x (List.mem_cons_of_mem _ hx))]

theorem matchSegs_length (ts : List Seg) (cs : List (List Char)) :
    matchSegs ts cs = true → ts.length = cs.length := by
  induction ts generalizing cs with
  | nil => cases cs <;> simp [matchSegs]
  | cons t ts ih =>
    cases cs with
    | nil => cases t <;> simp [matchSegs]
    | cons c cs' =>
      cases t <;> simp only [matchSegs, Bool.and_eq_true, List.length_cons] <;>
        intro h <;> exact congrArg Nat.succ (ih cs' h.2)

theorem allowed_count_le_six : ∀ t ∈ ALLOWED_PATHS, t.data.count '/' ≤ 6 := by decide

theorem allowed_five_fourth :
    ∀ t ∈ ALLOWED_PATHS, t.data.count '/' = 5 →
      (t.data[4]? = some 'r' ∨ t.data[4]? = some 't') := by decide

theorem allowed_tpl_chunks :
    ∀ t ∈ ALLOWED_PATHS, t.data.contains ':' = true →
      ((splitSeg t.data).length = 5 ∨ (splitSeg t.data).length = 7) := by decide

theorem mem_of_contains (s : String) (h : ALLOWED_PATHS.contains s = true) :
    s ∈ ALLOWED_PATHS :=
  List.mem_of_elem_eq_true h

/-- No template can match a request whose chunk count differs from every
template's chunk count (5 or 7 in the allowlist). -/
theorem templatesAccept_false_of_chunks (s : String)
    (h5 : (splitSeg s.data).length ≠ 5) (h7 : (splitSeg s.data).length ≠ 7) :
    templatesAccept s = false := by
  cases hta : templatesAccept s with
  | false => rfl
  | true =>
    exfalso
    rw [templatesAccept, List.any_eq_true] at hta
    obtain ⟨p, hp, hcond⟩ := hta
    rw [Bool.and_eq_true] at hcond
    have hlen := matchSegs_length _ _ hcond.2
    rw [compileSegs, List.length_map] at hlen
    rcases allowed_tpl_chunks p hp hcond.1 with h | h
    · exact h5 (by rw [← hlen, h])
    · exact h7 (by rw [← hlen, h])

theorem count_slash_zero (a : String) (h : a.data.all (fun c => !(c = '/')) = true) :
    a.data.count '/' = 0 := by
  rw [List.count_eq_zero]
  intro hmem
  rw [List.all_eq_true] at h
  have := h _ hmem
  simp at this

theorem contains_false_of_count7 (s : String) (hc : s.data.count '/' = 7) :
    ALLOWED_PATHS.contains s = false := by
  cases h : ALLOWED_PATHS.contains s with
  | false => rfl
  | true =>
    exfalso
    have hm := mem_of_contains s h
    have := allowed_count_le_six s hm
    omega

theorem contains_false_of_count5 (s : String) (hc : s.data.count '/' = 5)
    (h4 : s.data[4]? = some 'b' ∨ s.data[4]? = some 's') :
    ALLOWED_PATHS.contains s = false := by
  cases h : ALLOWED_PATHS.contains s with
  | false => rfl
  | true =>
    exfalso
    have hm := mem_of_contains s h
    rcases allowed_five_fourth s hm hc with hr | hr <;>
      rcases h4 with h4 | h4 <;> rw [h4] at hr <;> simp at hr

/-- Any single non-empty slash-free substitution into
`/v1/booking/flight-orders/:flightOrderId` is accepted. -/
theorem flightSub_allowed (seg : String) (h1 : seg ≠ "")
    (h2 : seg.data.all (fun c => !(c = '/')) = true) :
    pathIsAllowed ("/v1/booking/flight-orders/" ++ seg) = true := by
  have hsplit : splitSeg (("/v1/booking/flight-orders/" ++ seg).data)
      = [[], "v1".data, "booking".data, "flight-orders".data, seg.data] := by
    have hd : ("/v1/booking/flight-orders/" ++ seg).data
        = joinSegs [[], "v1".data, "booking".data, "flight-orders".data, seg.data] := by
      rw [String.data_append]
      rfl
    rw [hd]
    apply splitSeg_joinSegs _ (by simp)
    intro p hp
    simp only [List.mem_cons, List.not_mem_nil, or_false] at hp
    rcases hp with rfl | rfl | rfl | rfl | rfl <;> first | decide | exact h2
  have hne : seg.data ≠ [] := by
    intro hc
    exact h1 (by cases seg; simp at hc; simp [hc])
  have hcomp : compileSegs "/v1/booking/flight-orders/:flightOrderId".data
      = [Seg.lit [], Seg.lit "v1".data, Seg.lit "booking".data,
         Seg.lit "flight-orders".data, Seg.hole] := by decide
  rw [pathIsAllowed, Bool.or_eq_true]
  right
  rw [templatesAccept, List.any_eq_true]
  refine ⟨"/v1/booking/flight-orders/:flightOrderId", by decide, ?_⟩
  rw [Bool.and_eq_true]
  refine ⟨by decide, ?_⟩
  rw [hcomp, hsplit]
  simp [matchSegs, hne, h2]

/-- Any single non-empty slash-free substitution into
`/v3/shopping/hotel-offers/:hotelOfferId` is accepted. -/
theorem hotelSub_allowed (seg : String) (h1 : seg ≠ "")
    (h2 : seg.data.all (fun c => !(c = '/')) = true) :
    pathIsAllowed ("/v3/shopping/hotel-offers/" ++ seg) = true := by
  have hsplit : splitSeg (("/v3/shopping/hotel-offers/" ++ seg).data)
      = [[], "v3".data, "shopping".data, "hotel-offers".data, seg.data] := by
    have hd : ("/v3/shopping/hotel-offers/" ++ seg).data
        = joinSegs [[], "v3".data, "shopping".data, "hotel-offers".data, seg.data] := by
      rw [String.data_append]
      rfl
    rw [hd]
    apply splitSeg_joinSegs _ (by simp)
    intro p hp
    simp only [List.mem_cons, List.not_mem_nil, or_false] at hp
    rcases hp with rfl | rfl | rfl | rfl | rfl <;> first | decide | exact h2
  have hne : seg.data ≠ [] := by
    intro hc
    exact h1 (by cases seg; simp at hc; simp [hc])
  have hcomp : compileSegs "/v3/shopping/hotel-offers/:hotelOfferId".data
      = [Seg.lit [], Seg.lit "v3".data, Seg.lit "shopping".data,
         Seg.lit "hotel-offers".data, Seg.hole] := by decide
  rw [pathIsAllowed, Bool.or_eq_true]
  right
  rw [templatesAccept, List.any_eq_true]
  refine ⟨"/v3/shopping/hotel-offers/:hotelOfferId", by decide, ?_⟩
  rw [Bool.and_eq_true]
  refine ⟨by decide, ?_⟩
  rw [hcomp, hsplit]
  simp [matchSegs, hne, h2]

/-- Any single non-empty slash-free substitution into
`/v1/ordering/transfer-orders/:transferOrderId/transfers/cancellation`
is accepted. -/
theorem transferSub_allowed (seg : String) (h1 : seg ≠ "")
    (h2 : seg.data.all (fun c => !(c = '/')) = true) :
    pathIsAllowed ("/v1/ordering/transfer-orders/" ++ seg ++ "/transfers/cancellation") = true := by
  have hd : ("/v1/ordering/transfer-orders/" ++ seg ++ "/transfers/cancellation").data
      = joinSegs [[], "v1".data, "ordering".data, "transfer-orders".data, seg.data,
                  "transfers".data, "cancellation".data] := by
    simp only [String.data_append]
    rw [List.append_assoc]
    rfl
  have hsplit : splitSeg (("/v1/ordering/transfer-orders/" ++ seg ++ "/transfers/cancellation").data)
      = [[], "v1".data, "ordering".data, "transfer-orders".data, seg.data,
         "transfers".data, "cancellation".data] := by
    rw [hd]
    apply splitSeg_joinSegs _ (by simp)
    intro p hp
    simp only [List.mem_cons, List.not_mem_nil, or_false] at hp
    rcases hp with rfl | rfl | rfl | rfl | rfl | rfl | rfl <;> first | decide | exact h2
  have hne : seg.data ≠ [] := by
    intro hc
    exact h1 (by cases seg; simp at hc; simp [hc])
  have hcomp : compileSegs "/v1/ordering/transfer-orders/:transferOrderId/transfers/cancellation".data
      = [Seg.lit [], Seg.lit "v1".data, Seg.lit "ordering".data,
         Seg.lit "transfer-orders".data, Seg.hole,
         Seg.lit "transfers".data, Seg.lit "cancellation".data] := by decide
  rw [pathIsAllowed, Bool.or_eq_true]
  right
  rw [templatesAccept, List.any_eq_true]
  refine ⟨"/v1/ordering/transfer-orders/:transferOrderId/transfers/cancellation", by decide, ?_⟩
  rw [Bool.and_eq_true]
  refine ⟨by decide, ?_⟩
  rw [hcomp, hsplit]
  simp [matchSegs, hne, h2]

/-- A flight-orders substitution containing an embedded slash is rejected. -/
theorem flightSlash_rejected (a b : String)
    (ha : a.data.all (fun c => !(c = '/')) = true)
    (hb : b.data.all (fun c => !(c = '/')) = true) :
    pathIsAllowed ("/v1/booking/flight-orders/" ++ a ++ "/" ++ b) = false := by
  have hd : ("/v1/booking/flight-orders/" ++ a ++ "/" ++ b).data
      = "/v1/booking/flight-orders/".data ++ (a.data ++ '/' :: b.data) := by
    simp [String.data_append]
  have hsplit : splitSeg (("/v1/booking/flight-orders/" ++ a ++ "/" ++ b).data)
      = [[], "v1".data, "booking".data, "flight-orders".data, a.data, b.data] := by
    have hj : ("/v1/booking/flight-orders/" ++ a ++ "/" ++ b).data
        = joinSegs [[], "v1".data, "booking".data, "flight-orders".data, a.data, b.data] := by
      rw [hd]
      rfl
    rw [hj]
    apply splitSeg_joinSegs _ (by simp)
    intro p hp
    simp only [List.mem_cons, List.not_mem_nil, or_false] at hp
    rcases hp with rfl | rfl | rfl | rfl | rfl | rfl <;> first | decide | exact ha | exact hb
  have hcount : ("/v1/booking/flight-orders/" ++ a ++ "/" ++ b).data.count '/' = 5 := by
    rw [hd]
    simp only [List.count_append, List.count_cons]
    rw [count_slash_zero a ha, count_slash_zero b hb]
    decide
  have h4 : ("/v1/booking/flight-orders/" ++ a ++ "/" ++ b).data[4]? = some 'b' := by
    rw [hd]
    rw [List.getElem?_append_left (by decide)]
    decide
  rw [pathIsAllowed, Bool.or_eq_false_iff]
  constructor
  · exact contains_false_of_count5 _ hcount (Or.inl h4)
  · apply templatesAccept_false_of_chunks <;> rw [hsplit] <;> simp

/-- A hotel-offers substitution containing an embedded slash is rejected. -/
theorem hotelSlash_rejected (a b : String)
    (ha : a.data.all (fun c => !(c = '/')) = true)
    (hb : b.data.all (fun c => !(c = '/')) = true) :
    pathIsAllowed ("/v3/shopping/hotel-offers/" ++ a ++ "/" ++ b) = false := by
  have hd : ("/v3/shopping/hotel-offers/" ++ a ++ "/" ++ b).data
      = "/v3/shopping/hotel-offers/".data ++ (a.data ++ '/' :: b.data) := by
    simp [String.data_append]
  have hsplit : splitSeg (("/v3/shopping/hotel-offers/" ++ a ++ "/" ++ b).data)
      = [[], "v3".data, "shopping".data, "hotel-offers".data, a.data, b.data] := by
    have hj : ("/v3/shopping/hotel-offers/" ++ a ++ "/" ++ b).data
        = joinSegs [[], "v3".data, "shopping".data, "hotel-offers".data, a.data, b.data] := by
      rw [hd]
      rfl
    rw [hj]
    apply splitSeg_joinSegs _ (by simp)
    intro p hp
    simp only [List.mem_cons, List.not_mem_nil, or_false] at hp
    rcases hp with rfl | rfl | rfl | rfl | rfl | rfl <;> first | decide | exact ha | exact hb
  have hcount : ("/v3/shopping/hotel-offers/" ++ a ++ "/" ++ b).data.count '/' = 5 := by
    rw [hd]
    simp only [List.count_append, List.count_cons]
    rw [count_slash_zero a ha, count_slash_zero b hb]
    decide
  have h4 : ("/v3/shopping/hotel-offers/" ++ a ++ "/" ++ b).data[4]? = some 's' := by
    rw [hd]
    rw [List.getElem?_append_left (by decide)]
    decide
  rw [pathIsAllowed, Bool.or_eq_false_iff]
  constructor
  · exact contains_false_of_count5 _ hcount (Or.inr h4)
  · apply templatesAccept_false_of_chunks <;> rw [hsplit] <;> simp

/-- A transfer-orders substitution containing an embedded slash is rejected. -/
theorem transferSlash_rejected (a b : String)
    (ha : a.data.all (fun c => !(c = '/')) = true)
    (hb : b.data.all (fun c => !(c = '/')) = true) :
    pathIsAllowed ("/v1/ordering/transfer-orders/" ++ a ++ "/" ++ b ++ "/transfers/cancellation")
      = false := by
  have hd : ("/v1/ordering/transfer-orders/" ++ a ++ "/" ++ b ++ "/transfers/cancellation").data
      = "/v1/ordering/transfer-orders/".data
          ++ (a.data ++ '/' :: (b.data ++ '/' :: ("transfers".data ++ '/' :: "cancellation".data))) := by
    simp [String.data_append]
  have hsplit : splitSeg (("/v1/ordering/transfer-orders/" ++ a ++ "/" ++ b
        ++ "/transfers/cancellation").data)
      = [[], "v1".data, "ordering".data, "transfer-orders".data, a.data, b.data,
         "transfers".data, "cancellation".data] := by
    have hj : ("/v1/ordering/transfer-orders/" ++ a ++ "/" ++ b ++ "/transfers/cancellation").data
        = joinSegs [[], "v1".data, "ordering".data, "transfer-orders".data, a.data, b.data,
                    "transfers".data, "cancellation".data] := by
      rw [hd]
      rfl
    rw [hj]
    apply splitSeg_joinSegs _ (by simp)
    intro p hp
    simp only [List.mem_cons, List.not_mem_nil, or_false] at hp
    rcases hp with rfl | rfl | rfl | rfl | rfl | rfl | rfl | rfl <;> first | decide | exact ha | exact hb
  have hcount : ("/v1/ordering/transfer-orders/" ++ a ++ "/" ++ b
        ++ "/transfers/cancellation").data.count '/' = 7 := by
    rw [hd]
    simp only [List.count_append, List.count_cons]
    rw [count_slash_zero a ha, count_slash_zero b hb]
    decide
  rw [pathIsAllowed, Bool.or_eq_false_iff]
  constructor
  · exact contains_false_of_count7 _ hcount
  · apply templatesAccept_false_of_chunks <;> rw [hsplit] <;> simp

/-! ### Helper lemmas about the header merge -/

theorem find?_map_replace_self (l : List (String × String)) (k v : String) :
    ((l.map (fun kv => if kv.1 == k then (k, v) else kv)).find? (fun kv => kv.1 == k))
      = (l.find? (fun kv => kv.1 == k)).map (fun _ => (k, v)) := by
  induction l with
  | nil => rfl
  | cons p rest ih =>
    by_cases hp : (p.1 == k) = true
    · rw [List.map_cons, if_pos hp]
      rw [@List.find?_cons_of_pos _ (fun kv => kv.1 == k) (k, v) _ (beq_self_eq_true k)]
      rw [@List.find?_cons_of_pos _ (fun kv => kv.1 == k) p _ hp]
      rfl
    · rw [List.map_cons, if_neg hp]
      rw [@List.find?_cons_of_neg _ (fun kv => kv.1 == k) p _ hp,
          @List.find?_cons_of_neg _ (fun kv => kv.1 == k) p _ hp]
      exact ih

theorem find?_map_replace_other (l : List (String × String)) (k q v : String)
    (hkq : (k == q) = false) :
    ((l.map (fun kv => if kv.1 == k then (k, v) else kv)).find? (fun kv => kv.1 == q))
      = l.find? (fun kv => kv.1 == q) := by
  induction l with
  | nil => rfl
  | cons p rest ih =>
    by_cases hp : (p.1 == k) = true
    · have hpq : (p.1 == q) = false := by
        rw [beq_iff_eq.mp hp]
        exact hkq
      rw [List.map_cons, if_pos hp]
      rw [@List.find?_cons_of_neg _ (fun kv => kv.1 == q) (k, v) _ (ne_true_of_eq_false hkq)]
      rw [@List.find?_cons_of_neg _ (fun kv => kv.1 == q) p _ (ne_true_of_eq_false hpq)]
      exact ih
    · rw [List.map_cons, if_neg hp]
      by_cases hq : (p.1 == q) = true
      · rw [@List.find?_cons_of_pos _ (fun kv => kv.1 == q) p _ hq,
            @List.find?_cons_of_pos _ (fun kv => kv.1 == q) p _ hq]
      · rw [@List.find?_cons_of_neg _ (fun kv => kv.1 == q) p _ hq,
            @List.find?_cons_of_neg _ (fun kv => kv.1 == q) p _ hq]
        exact ih

theorem find?_none_of_any_false (l : List (String × String)) (p : String × String → Bool)
    (h : l.any p = false) : l.find? p = none := by
  rw [List.find?_eq_none]
  intro x hx
  rw [List.any_eq_false] at h
  simp [h x hx]

theorem lookupKey_setKey_self (l : List (String × String)) (k v : String) :
    lookupKey (setKey l k v) k = some v := by
  rw [setKey]
  split
  · rename_i hany
    rw [lookupKey, find?_map_replace_self]
    rw [List.any_eq_true] at hany
    obtain ⟨kv, hkv, hq⟩ := hany
    cases hfind : l.find? (fun kv => kv.1 == k) with
    | none =>
        exfalso
        rw [List.find?_eq_none] at hfind
        exact (hfind kv hkv) hq
    | some x => rfl
  · rename_i hany
    rw [lookupKey, List.find?_append,
        find?_none_of_any_false l _ (Bool.of_not_eq_true hany)]
    rw [@List.find?_cons_of_pos _ (fun kv => kv.1 == k) (k, v) _ (beq_self_eq_true k)]
    rfl

theorem lookupKey_setKey_other (l : List (String × String)) (k q v : String)
    (hkq : (k == q) = false) :
    lookupKey (setKey l k v) q = lookupKey l q := by
  rw [setKey]
  split
  · rw [lookupKey, find?_map_replace_other l k q v hkq, lookupKey]
  · rw [lookupKey, List.find?_append, lookupKey]
    rw [show List.find? (fun kv => kv.1 == q) [(k, v)] = none by
      rw [@List.find?_cons_of_neg _ (fun kv => kv.1 == q) (k, v) _ (ne_true_of_eq_false hkq)]
      rfl]
    cases l.find? (fun kv => kv.1 == q) <;> rfl

theorem lookupKey_merged_auth (h : List (String × String)) (tok : Json) (ct : String) :
    lookupKey (mergedHeaders h tok ct) "Authorization" = some ("Bearer " ++ tok.interp) := by
  rw [mergedHeaders, lookupKey_setKey_other _ _ _ _ (by decide), lookupKey_setKey_self]

theorem lookupKey_merged_ct (h : List (String × String)) (tok : Json) (ct : String) :
    lookupKey (mergedHeaders h tok ct) "Content-Type" = some ct := by
  rw [mergedHeaders, lookupKey_setKey_self]


/-! ### Reduction helpers for `Except` -/

theorem exceptBind_ok {α β ε : Type} (x : α) (f : α → Except ε β) :
    (Except.ok x >>= f) = f x := rfl

theorem exceptBind_err {α β ε : Type} (e : ε) (f : α → Except ε β) :
    ((Except.error e : Except ε α) >>= f) = Except.error e := rfl

/-! ## Claim theorems -/

/-- C1 (code_bug evidence): the matcher performs no stripping of `?`/`#`
before matching.  The candidate `/v1/booking/flight-orders/?q=1` is ACCEPTED —
the template regex `[^/]+` happily matches the segment `?q=1` — even though
its path component `/v1/booking/flight-orders/` (what remains after stripping
the `?`-suffix) is NOT allowlisted: an allowlist bypass by query-string
smuggling, which the spec requires to be impossible.  The third conjunct
shows stripping does not happen on the literal side either: appending `?x=1`
to an exactly-allowlisted path makes it rejected instead of matching its
path component. -/
theorem c1_query_fragment_smuggling :
    pathIsAllowed "/v1/booking/flight-orders/?q=1" = true
    ∧ pathIsAllowed "/v1/booking/flight-orders/" = false
    ∧ pathIsAllowed "/v2/shopping/flight-offers?x=1" = false := by
  refine ⟨by decide, by decide, by decide⟩

/-- C2 (counterexample): `forwardAmadeus` has no try/catch, so a transport
failure of the main request (modelled by a rejected axios outcome with no
response) propagates as an exception to its caller instead of being returned
as a normalized `{payload, isError}` result. -/
theorem c2_forwarder_propagates_counterexample :
    (forwardAmadeus sampleReq
        ⟨okTokenOutcome, .failed ⟨"getaddrinfo ENOTFOUND test.api.amadeus.com", none⟩⟩).1
      = Except.error (Thrown.axios ⟨"getaddrinfo ENOTFOUND test.api.amadeus.com", none⟩) := rfl

/-- C2 (amended): transport failures of the main request are caught only in
the `amadeus.request` tool handler, whose catch block returns
`Forwarding error ({status or 500}): {stringified detail}` with `isError =
true` (status 500 and detail `{error: message}` when no response is
available); `forwardAmadeus` itself propagates the exception to its caller. -/
theorem c2_transport_error_normalization (req : ForwardRequest) (env : HttpEnv)
    (tok : Json) (e : AxiosError)
    (htok : getAmadeusToken env.tokenOutcome = .ok tok)
    (hmain : env.mainOutcome = .failed e)
    (hresp : e.response = none) :
    (amadeusRequestHandler req env).1 = .ok ⟨forwardingErrorText e, true⟩
    ∧ forwardingErrorText e
        = "Forwarding error (500): "
          ++ (Json.obj [("error",
                Json.str (if e.message = "" then "Unknown error" else e.message))]).stringify
    ∧ (forwardAmadeus req env).1 = .error (.axios e) := by
  refine ⟨?_, ?_, ?_⟩
  · simp [amadeusRequestHandler, htok, hmain, axiosExec]
  · simp only [forwardingErrorText, hresp]
    rfl
  · simp [forwardAmadeus, htok, hmain, axiosExec]

/-- C2 witness: the amended statement evaluated on a concrete connection
failure. -/
theorem c2_transport_error_normalization_witness :
    getAmadeusToken okTokenOutcome = .ok (Json.str "tok123")
    ∧ ((amadeusRequestHandler sampleReq ⟨okTokenOutcome, .failed ⟨"ECONNREFUSED", none⟩⟩).1
         = .ok ⟨forwardingErrorText ⟨"ECONNREFUSED", none⟩, true⟩
       ∧ forwardingErrorText ⟨"ECONNREFUSED", none⟩
           = "Forwarding error (500): "
             ++ (Json.obj [("error",
                   Json.str (if ("ECONNREFUSED" : String) = "" then "Unknown error"
                             else "ECONNREFUSED"))]).stringify
       ∧ (forwardAmadeus sampleReq ⟨okTokenOutcome, .failed ⟨"ECONNREFUSED", none⟩⟩).1
           = .error (.axios ⟨"ECONNREFUSED", none⟩)) :=
  ⟨rfl, c2_transport_error_normalization sampleReq
    ⟨okTokenOutcome, .failed ⟨"ECONNREFUSED", none⟩⟩
    (Json.str "tok123") ⟨"ECONNREFUSED", none⟩ rfl rfl rfl⟩

/-- C3 (counterexample): the token fetch of the `amadeus.request` handler sits
outside its try block, so a failure of the OAuth2 token acquisition step
raises an uncaught exception out of the tool handler instead of producing a
result with an `isError` flag. -/
theorem c3_token_failure_raises_counterexample :
    (amadeusRequestHandler sampleReq
        ⟨.failed ⟨"connect ECONNREFUSED 104.20.0.1:443", none⟩,
         .completed ⟨200, Json.obj []⟩⟩).1
      = Except.error (Thrown.jsError "Amadeus auth error: connect ECONNREFUSED 104.20.0.1:443") := rfl

/-- C3 (amended): once token acquisition succeeds, the `amadeus.request`
handler never raises — every main-request outcome yields a text payload with
an `isError` flag; but a token-acquisition failure propagates out of the
handler, and a fixed-path handler such as `amadeus.v2.shopping.flight-offers`
propagates both token failures and main-request transport failures (it calls
`forwardAmadeus`, which has no catch). -/
theorem c3_error_containment (req : ForwardRequest) (env envBad envT : HttpEnv)
    (input : RawInput) (args : NormalizedBase) (tok tok2 : Json) (msg : String) (e : AxiosError)
    (htok : getAmadeusToken env.tokenOutcome = .ok tok)
    (hbad : getAmadeusToken envBad.tokenOutcome = .error msg)
    (hargs : normalizeBase input = .ok args)
    (htokT : getAmadeusToken envT.tokenOutcome = .ok tok2)
    (hmainT : envT.mainOutcome = .failed e) :
    (∃ res : HandlerResult, (amadeusRequestHandler req env).1 = .ok res)
    ∧ (amadeusRequestHandler req envBad).1 = .error (.jsError msg)
    ∧ (flightOffersHandler input envBad).1 = .error (.jsError msg)
    ∧ (flightOffersHandler input envT).1 = .error (.axios e) := by
  refine ⟨?_, ?_, ?_, ?_⟩
  · rcases henv : env.mainOutcome with r | e2
    · exact ⟨⟨payloadOf r.data, decide (400 ≤ r.status)⟩,
        by simp [amadeusRequestHandler, htok, henv, axiosExec]⟩
    · exact ⟨⟨forwardingErrorText e2, true⟩,
        by simp [amadeusRequestHandler, htok, henv, axiosExec]⟩
  · simp [amadeusRequestHandler, hbad]
  · simp [flightOffersHandler, hargs, forwardAmadeus, hbad]
  · simp [flightOffersHandler, hargs, forwardAmadeus, htokT, hmainT, axiosExec]

/-- C3 witness: the amended statement evaluated on concrete environments. -/
theorem c3_error_containment_witness :
    getAmadeusToken okTokenOutcome = .ok (Json.str "tok123")
    ∧ getAmadeusToken (.failed ⟨"dns fail", none⟩)
        = .error "Amadeus auth error: dns fail"
    ∧ normalizeBase ⟨.str "test", .str "key1", .str "secret1", .undef, none,
        .objv [], .undef, .intNum 20000⟩
        = .ok ⟨"test", "key1", "secret1", [], none, [], "application/json", 20000⟩
    ∧ ((∃ res : HandlerResult,
          (amadeusRequestHandler sampleReq
            ⟨okTokenOutcome, .completed ⟨200, Json.obj []⟩⟩).1 = .ok res)
       ∧ (amadeusRequestHandler sampleReq
            ⟨.failed ⟨"dns fail", none⟩, .completed ⟨200, Json.obj []⟩⟩).1
          = .error (.jsError "Amadeus auth error: dns fail")
       ∧ (flightOffersHandler ⟨.str "test", .str "key1", .str "secret1", .undef, none,
            .objv [], .undef, .intNum 20000⟩
            ⟨.failed ⟨"dns fail", none⟩, .completed ⟨200, Json.obj []⟩⟩).1
          = .error (.jsError "Amadeus auth error: dns fail")
       ∧ (flightOffersHandler ⟨.str "test", .str "key1", .str "secret1", .undef, none,
            .objv [], .undef, .intNum 20000⟩
            ⟨okTokenOutcome, .failed ⟨"socket hang up", none⟩⟩).1
          = .error (.axios ⟨"socket hang up", none⟩)) :=
  ⟨rfl, rfl, rfl,
   c3_error_containment sampleReq
     ⟨okTokenOutcome, .completed ⟨200, Json.obj []⟩⟩
     ⟨.failed ⟨"dns fail", none⟩, .completed ⟨200, Json.obj []⟩⟩
     ⟨okTokenOutcome, .failed ⟨"socket hang up", none⟩⟩
     ⟨.str "test", .str "key1", .str "secret1", .undef, none, .objv [], .undef, .intNum 20000⟩
     ⟨"test", "key1", "secret1", [], none, [], "application/json", 20000⟩
     (Json.str "tok123") (Json.str "tok123") "Amadeus auth error: dns fail"
     ⟨"socket hang up", none⟩ rfl rfl rfl rfl rfl⟩

/-- C4 (confirmed): any candidate headers containing an authorization key
(compared case-insensitively) are rejected at the entry boundary — both by the
zod refine of `RequestSchema.headers` and by `assertNoAuthHeader` — and for
whatever headers the forwarder is invoked with, the outgoing request's
`Authorization` header is exactly `Bearer {token}` for the freshly obtained
token and its `Content-Type` is the server-chosen one: the object-spread merge
assigns the two server-set entries after the caller's, so they take precedence
over any caller-supplied same-named header. -/
theorem c4_authorization_header_invariant (req : ForwardRequest) (env : HttpEnv)
    (tok : Json) (out : Outgoing) (hdrs : List (String × String)) (k v : String)
    (htok : getAmadeusToken env.tokenOutcome = .ok tok)
    (hout : (forwardAmadeus req env).2 = some out)
    (hk : (k, v) ∈ hdrs) (hlow : lowerKey k = "authorization") :
    lookupKey out.headers "Authorization" = some ("Bearer " ++ tok.interp)
    ∧ lookupKey out.headers "Content-Type" = some req.contentType
    ∧ headersRefine hdrs = false
    ∧ assertNoAuthHeader hdrs
        = .error "Do not send Authorization; it will be set by the server." := by
  have hany : hdrs.any (fun kv => lowerKey kv.1 == "authorization") = true := by
    rw [List.any_eq_true]
    exact ⟨(k, v), hk, by rw [hlow]; exact beq_self_eq_true _⟩
  have hhead : out.headers = mergedHeaders req.headers tok req.contentType := by
    rcases henv : env.mainOutcome with r | e
    · rw [forwardAmadeus, htok] at hout
      simp only [henv, axiosExec] at hout
      cases hout
      rfl
    · rw [forwardAmadeus, htok] at hout
      simp only [henv, axiosExec] at hout
      cases hout
      rfl
  refine ⟨?_, ?_, ?_, ?_⟩
  · rw [hhead, lookupKey_merged_auth]
  · rw [hhead, lookupKey_merged_ct]
  · rw [headersRefine, hany]
    rfl
  · rw [assertNoAuthHeader, if_pos hany]

/-- C4 witness: a caller-supplied `Authorization: evil` header is overridden
in the merged outgoing headers, and inputs with any case variant of the key
are rejected at the boundary. -/
theorem c4_authorization_header_invariant_witness :
    getAmadeusToken okTokenOutcome = .ok (Json.str "tok123")
    ∧ (forwardAmadeus
        ⟨"test", "GET", "/v2/shopping/flight-offers", [], none,
         [("Authorization", "evil")], "application/json", 15000⟩
        ⟨okTokenOutcome, .completed ⟨200, Json.obj []⟩⟩).2
      = some ⟨"https://test.api.amadeus.com/v2/shopping/flight-offers", "GET",
              [("Authorization", "Bearer tok123"), ("Content-Type", "application/json")], 15000⟩
    ∧ (("aUtHoRiZaTiOn", "evil") ∈ [("aUtHoRiZaTiOn", "evil")])
    ∧ lowerKey "aUtHoRiZaTiOn" = "authorization"
    ∧ (lookupKey [("Authorization", "Bearer tok123"), ("Content-Type", "application/json")]
          "Authorization" = some ("Bearer " ++ (Json.str "tok123").interp)
       ∧ lookupKey [("Authorization", "Bearer tok123"), ("Content-Type", "application/json")]
          "Content-Type" = some "application/json"
       ∧ headersRefine [("aUtHoRiZaTiOn", "evil")] = false
       ∧ assertNoAuthHeader [("aUtHoRiZaTiOn", "evil")]
           = .error "Do not send Authorization; it will be set by the server.") :=
  ⟨rfl, rfl, by decide, by decide,
   c4_authorization_header_invariant
     ⟨"test", "GET", "/v2/shopping/flight-offers", [], none,
      [("Authorization", "evil")], "application/json", 15000⟩
     ⟨okTokenOutcome, .completed ⟨200, Json.obj []⟩⟩
     (Json.str "tok123")
     ⟨"https://test.api.amadeus.com/v2/shopping/flight-offers", "GET",
      [("Authorization", "Bearer tok123"), ("Content-Type", "application/json")], 15000⟩
     [("aUtHoRiZaTiOn", "evil")] "aUtHoRiZaTiOn" "evil" rfl rfl (by decide) (by decide)⟩


/-- C5 (counterexample): the claim also asserts that a candidate with missing
segments relative to a placeholder template is rejected, but
`/v1/booking/flight-orders` — missing the `:flightOrderId` segment of the
template `/v1/booking/flight-orders/:flightOrderId`, which is in the
allowlist — is ACCEPTED, because it is itself a literal allowlist entry. -/
theorem c5_missing_segment_counterexample :
    pathIsAllowed "/v1/booking/flight-orders" = true
    ∧ "/v1/booking/flight-orders/:flightOrderId" ∈ ALLOWED_PATHS := by
  refine ⟨by decide, by decide⟩

/-- C5 (amended): for each of the three placeholder templates in the
allowlist, substituting any single non-empty slash-free segment yields an
accepted path; a candidate whose placeholder position is empty is rejected,
and a substitution containing an embedded slash (equivalently, a candidate
with an extra segment) is rejected; but a candidate with missing segments
relative to a template is not necessarily rejected — it can still be accepted
as an exact literal entry, as `/v1/booking/flight-orders` is. -/
theorem c5_template_substitution (seg a b : String)
    (h1 : seg ≠ "") (h2 : seg.data.all (fun c => !(c = '/')) = true)
    (ha : a.data.all (fun c => !(c = '/')) = true)
    (hb : b.data.all (fun c => !(c = '/')) = true) :
    pathIsAllowed ("/v1/booking/flight-orders/" ++ seg) = true
    ∧ pathIsAllowed ("/v3/shopping/hotel-offers/" ++ seg) = true
    ∧ pathIsAllowed ("/v1/ordering/transfer-orders/" ++ seg ++ "/transfers/cancellation") = true
    ∧ pathIsAllowed "/v1/booking/flight-orders/" = false
    ∧ pathIsAllowed "/v3/shopping/hotel-offers/" = false
    ∧ pathIsAllowed "/v1/ordering/transfer-orders//transfers/cancellation" = false
    ∧ pathIsAllowed ("/v1/booking/flight-orders/" ++ a ++ "/" ++ b) = false
    ∧ pathIsAllowed ("/v3/shopping/hotel-offers/" ++ a ++ "/" ++ b) = false
    ∧ pathIsAllowed ("/v1/ordering/transfer-orders/" ++ a ++ "/" ++ b
        ++ "/transfers/cancellation") = false
    ∧ pathIsAllowed "/v1/booking/flight-orders" = true :=
  ⟨flightSub_allowed seg h1 h2, hotelSub_allowed seg h1 h2, transferSub_allowed seg h1 h2,
   by decide, by decide, by decide,
   flightSlash_rejected a b ha hb, hotelSlash_rejected a b ha hb,
   transferSlash_rejected a b ha hb, by decide⟩

/-- C5 witness: the amended statement at segment `ABC123` and embedded-slash
substitution `ABC/extra`. -/
theorem c5_template_substitution_witness :
    ("ABC123" : String) ≠ ""
    ∧ ("ABC123" : String).data.all (fun c => !(c = '/')) = true
    ∧ ("ABC" : String).data.all (fun c => !(c = '/')) = true
    ∧ ("extra" : String).data.all (fun c => !(c = '/')) = true
    ∧ (pathIsAllowed ("/v1/booking/flight-orders/" ++ "ABC123") = true
       ∧ pathIsAllowed ("/v3/shopping/hotel-offers/" ++ "ABC123") = true
       ∧ pathIsAllowed ("/v1/ordering/transfer-orders/" ++ "ABC123"
           ++ "/transfers/cancellation") = true
       ∧ pathIsAllowed "/v1/booking/flight-orders/" = false
       ∧ pathIsAllowed "/v3/shopping/hotel-offers/" = false
       ∧ pathIsAllowed "/v1/ordering/transfer-orders//transfers/cancellation" = false
       ∧ pathIsAllowed ("/v1/booking/flight-orders/" ++ "ABC" ++ "/" ++ "extra") = false
       ∧ pathIsAllowed ("/v3/shopping/hotel-offers/" ++ "ABC" ++ "/" ++ "extra") = false
       ∧ pathIsAllowed ("/v1/ordering/transfer-orders/" ++ "ABC" ++ "/" ++ "extra"
           ++ "/transfers/cancellation") = false
       ∧ pathIsAllowed "/v1/booking/flight-orders" = true) :=
  ⟨by decide, by decide, by decide, by decide,
   c5_template_substitution "ABC123" "ABC" "extra"
     (by decide) (by decide) (by decide) (by decide)⟩

/-- C6 (counterexample): the claim asserts that any proper prefix of a literal
allowlist entry is rejected, but `/v1/reference-data/locations` is a proper
prefix of the literal entry `/v1/reference-data/locations/CMUC` and is
ACCEPTED, because it is itself another literal entry. -/
theorem c6_proper_prefix_counterexample :
    pathIsAllowed "/v1/reference-data/locations" = true
    ∧ "/v1/reference-data/locations" ++ "/CMUC" = "/v1/reference-data/locations/CMUC"
    ∧ "/v1/reference-data/locations/CMUC" ∈ ALLOWED_PATHS := by
  refine ⟨by decide, rfl, by decide⟩

/-- C6 (amended): every exact member of the allowlist is accepted, and every
string that is neither an exact member nor matched by a template is rejected —
in particular the empty string, and a proper prefix of a literal entry that is
not itself an exact member or template match (such as
`/v2/shopping/flight-offer`, a proper prefix of `/v2/shopping/flight-offers`);
but a proper prefix that happens to be another literal entry is accepted. -/
theorem c6_exact_membership_and_rejection (s t : String)
    (hmem : s ∈ ALLOWED_PATHS)
    (ht1 : ALLOWED_PATHS.contains t = false)
    (ht2 : templatesAccept t = false) :
    pathIsAllowed s = true
    ∧ pathIsAllowed t = false
    ∧ pathIsAllowed "" = false
    ∧ pathIsAllowed "/v2/shopping/flight-offer" = false := by
  refine ⟨?_, ?_, by decide, by decide⟩
  · have hc : ALLOWED_PATHS.contains s = true := List.elem_eq_true_of_mem hmem
    rw [pathIsAllowed, hc]
    rfl
  · rw [pathIsAllowed, ht1, ht2]
    rfl

/-- C6 witness: the amended statement at an exact member and at
`/v1/unknown/endpoint`. -/
theorem c6_exact_membership_and_rejection_witness :
    ("/v2/shopping/flight-offers" : String) ∈ ALLOWED_PATHS
    ∧ ALLOWED_PATHS.contains "/v1/unknown/endpoint" = false
    ∧ templatesAccept "/v1/unknown/endpoint" = false
    ∧ (pathIsAllowed "/v2/shopping/flight-offers" = true
       ∧ pathIsAllowed "/v1/unknown/endpoint" = false
       ∧ pathIsAllowed "" = false
       ∧ pathIsAllowed "/v2/shopping/flight-offer" = false) :=
  ⟨by decide, by decide, by decide,
   c6_exact_membership_and_rejection "/v2/shopping/flight-offers" "/v1/unknown/endpoint"
     (by decide) (by decide) (by decide)⟩

/-- C7 (confirmed): whenever the main upstream HTTP call completes with any
status code, `forwardAmadeus` does not throw (`validateStatus: () => true`
turns every completed response into a resolution): it returns `{payload,
isError}` with `isError = (status >= 400)` and payload the response body
verbatim when the body is a string, and its JSON serialization otherwise. -/
theorem c7_status_normalization (req : ForwardRequest) (env : HttpEnv)
    (tok : Json) (r : AxiosResp)
    (htok : getAmadeusToken env.tokenOutcome = .ok tok)
    (hmain : env.mainOutcome = .completed r) :
    (forwardAmadeus req env).1
      = .ok ⟨(match r.data with | Json.str s => s | d => Json.stringify d),
             decide (400 ≤ r.status)⟩ := by
  simp [forwardAmadeus, htok, hmain, axiosExec, payloadOf]

/-- C7 witness: a 404 with a JSON body is surfaced as an ordinary result with
the body serialized and `isError = true`, without throwing. -/
theorem c7_status_normalization_witness :
    getAmadeusToken okTokenOutcome = .ok (Json.str "tok123")
    ∧ (forwardAmadeus sampleReq
        ⟨okTokenOutcome, .completed ⟨404, Json.obj [("error", Json.str "not found")]⟩⟩).1
      = .ok ⟨(match Json.obj [("error", Json.str "not found")] with
              | Json.str s => s
              | d => Json.stringify d), decide (400 ≤ 404)⟩ :=
  ⟨rfl, c7_status_normalization sampleReq
    ⟨okTokenOutcome, .completed ⟨404, Json.obj [("error", Json.str "not found")]⟩⟩
    (Json.str "tok123") ⟨404, Json.obj [("error", Json.str "not found")]⟩ rfl rfl⟩

/-- C8 (confirmed): the token exchange, characterized over every completed
status and body and every transport failure.  On a 2xx status (axios's default
`validateStatus`) with a truthy body carrying a truthy `access_token`, the
token value is returned; on a 2xx status without one, the `AuthError`
`Amadeus auth error: No access_token in Amadeus response` is thrown; on a
non-2xx status the `AuthError` carries the upstream response body
(stringified when not a string); on a transport failure with no body it
carries the transport error message.  The last conjunct instantiates the
2xx case at a string token: non-empty gives the token, empty gives the
`AuthError`. -/
theorem c8_token_exchange_cases (st : Nat) (body : Json) (m : String) (t : String) :
    (getAmadeusToken (.completed ⟨st, body⟩)
      = (if defaultValidate st = true then
           (if body.truthy && truthyOpt (body.get "access_token") then
              .ok ((body.get "access_token").getD Json.null)
            else .error "Amadeus auth error: No access_token in Amadeus response")
         else
           .error ("Amadeus auth error: "
             ++ authDetail ⟨"Request failed with status code " ++ toString st,
                            some ⟨st, body⟩⟩)))
    ∧ getAmadeusToken (.failed ⟨m, none⟩) = .error ("Amadeus auth error: " ++ m)
    ∧ getAmadeusToken (.completed ⟨200, Json.obj [("access_token", Json.str t)]⟩)
        = (if t = "" then .error "Amadeus auth error: No access_token in Amadeus response"
           else .ok (Json.str t)) := by
  refine ⟨?_, ?_, ?_⟩
  · by_cases hv : defaultValidate st = true
    · by_cases ht : (body.truthy && truthyOpt (body.get "access_token")) = true
      · simp [getAmadeusToken, axiosExec, hv, ht]
      · simp [getAmadeusToken, axiosExec, hv, Bool.of_not_eq_true ht, authDetail]
    · simp [getAmadeusToken, axiosExec, hv, authDetail]
  · simp [getAmadeusToken, axiosExec, authDetail]
  · by_cases ht : t = ""
    · subst ht
      simp [getAmadeusToken, axiosExec, defaultValidate, Json.truthy, Json.get,
        truthyOpt, authDetail]
    · rw [if_neg ht]
      simp [getAmadeusToken, axiosExec, defaultValidate, Json.truthy, Json.get,
        truthyOpt, ht]

/-- C9 (confirmed): the forwarder obtains the token first; when that fails,
the error propagates and the main HTTP request is never issued (the recorded
outgoing request is `none`, and the result does not depend on how the main
request would have behaved).  The same short-circuit holds for the
`amadeus.request` handler, whose token fetch precedes its try block. -/
theorem c9_auth_short_circuit (req : ForwardRequest) (env : HttpEnv) (msg : String)
    (htok : getAmadeusToken env.tokenOutcome = .error msg) :
    forwardAmadeus req env = (.error (.jsError msg), none)
    ∧ amadeusRequestHandler req env = (.error (.jsError msg), none)
    ∧ (∀ alt : AxiosOutcome, forwardAmadeus req ⟨env.tokenOutcome, alt⟩
         = forwardAmadeus req env) := by
  refine ⟨?_, ?_, ?_⟩
  · simp [forwardAmadeus, htok]
  · simp [amadeusRequestHandler, htok]
  · intro alt
    simp [forwardAmadeus, htok]

/-- C9 witness: a timed-out token exchange short-circuits the forwarder. -/
theorem c9_auth_short_circuit_witness :
    getAmadeusToken (.failed ⟨"timeout of 15000ms exceeded", none⟩)
      = .error "Amadeus auth error: timeout of 15000ms exceeded"
    ∧ (forwardAmadeus sampleReq
        ⟨.failed ⟨"timeout of 15000ms exceeded", none⟩, .completed ⟨200, Json.obj []⟩⟩
        = (.error (.jsError "Amadeus auth error: timeout of 15000ms exceeded"), none)
       ∧ amadeusRequestHandler sampleReq
          ⟨.failed ⟨"timeout of 15000ms exceeded", none⟩, .completed ⟨200, Json.obj []⟩⟩
          = (.error (.jsError "Amadeus auth error: timeout of 15000ms exceeded"), none)
       ∧ (∀ alt : AxiosOutcome,
            forwardAmadeus sampleReq ⟨.failed ⟨"timeout of 15000ms exceeded", none⟩, alt⟩
              = forwardAmadeus sampleReq
                  ⟨.failed ⟨"timeout of 15000ms exceeded", none⟩,
                   .completed ⟨200, Json.obj []⟩⟩)) :=
  ⟨rfl, c9_auth_short_circuit sampleReq
    ⟨.failed ⟨"timeout of 15000ms exceeded", none⟩, .completed ⟨200, Json.obj []⟩⟩
    "Amadeus auth error: timeout of 15000ms exceeded" rfl⟩

/-- C10 (confirmed): with the earlier fields valid, `normalizeBase` never
raises on a non-integer (absent, fractional or non-numeric) `timeoutMs` — it
silently substitutes 15000, which is inside the accepted range — and raises
`timeoutMs must be a positive integer up to 60000` exactly when the effective
timeout (the supplied integer) lies outside `(0, 60000]`. -/
theorem c10_timeout_normalization (input : RawInput) (s k sec : String)
    (hl : List (String × String))
    (hs : input.serviceName = JSVal.str s) (hs2 : isBlank s = false)
    (hk : input.apiKey = JSVal.str k) (hk2 : isBlank k = false)
    (hsec : input.apiSecret = JSVal.str sec) (hsec2 : isBlank sec = false)
    (hh : input.headers = JSVal.objv hl)
    (hha : hl.any (fun kv => lowerKey kv.1 == "authorization") = false) :
    normalizeBase input
      = (if effTimeout input.timeoutMs > 0 ∧ effTimeout input.timeoutMs ≤ 60000 then
           .ok ⟨s, k, sec, (match input.query with | JSVal.objv q => q | _ => []),
                input.body, hl,
                (match input.contentType with | JSVal.str ct => ct | _ => "application/json"),
                effTimeout input.timeoutMs⟩
         else .error "timeoutMs must be a positive integer up to 60000") := by
  have e1 : ensureString input.serviceName "serviceName" = .ok s := by
    rw [hs, ensureString]
    simp [hs2]
  have e2 : ensureString input.apiKey "apiKey" = .ok k := by
    rw [hk, ensureString]
    simp [hk2]
  have e3 : ensureString input.apiSecret "apiSecret" = .ok sec := by
    rw [hsec, ensureString]
    simp [hsec2]
  have e4 : assertNoAuthHeader hl = .ok () := by
    rw [assertNoAuthHeader, if_neg (by simp [hha])]
  rw [normalizeBase]
  simp only [e1, e2, e3, hh, e4, exceptBind_ok]
  by_cases hrange : effTimeout input.timeoutMs > 0 ∧ effTimeout input.timeoutMs ≤ 60000
  · rw [if_pos hrange, if_neg (not_not_intro hrange)]
    rfl
  · rw [if_neg hrange, if_pos hrange]
    rfl

/-- C10 witness: a fractional `timeoutMs` silently becomes 15000 and an
in-range integer is kept (evaluated at a fractional input). -/
theorem c10_timeout_normalization_witness :
    (⟨.str "test", .str "key1", .str "secret1", .undef, none, .objv [("X-Trace", "1")],
      .undef, .fracNum⟩ : RawInput).serviceName = JSVal.str "test"
    ∧ isBlank "test" = false
    ∧ ([("X-Trace", "1")].any (fun kv => lowerKey kv.1 == "authorization")) = false
    ∧ normalizeBase ⟨.str "test", .str "key1", .str "secret1", .undef, none,
        .objv [("X-Trace", "1")], .undef, .fracNum⟩
      = .ok ⟨"test", "key1", "secret1", [], none, [("X-Trace", "1")],
             "application/json", 15000⟩ :=
  ⟨rfl, by decide, by decide,
   c10_timeout_normalization
     ⟨.str "test", .str "key1", .str "secret1", .undef, none, .objv [("X-Trace", "1")],
      .undef, .fracNum⟩
     "test" "key1" "secret1" [("X-Trace", "1")]
     rfl (by decide) rfl (by decide) rfl (by decide) rfl (by decide)⟩

end Amadeus
